import Mathlib

/-!
Verification of the wake-on-lan-web backend's session and credential
lifecycle subsystem (src/backend/src/auth.rs and src/backend/src/api/users.rs).

The database state (the `users` and `refresh_tokens` tables) is embedded as
lists of rows; each HTTP handler becomes a pure function from the state and
the request to an outcome paired with the successor state.  SQL statements are
embedded row by row: `UPDATE ... WHERE id = ?` maps over the user list,
`DELETE ... WHERE token_hash = ?` filters, `INSERT` appends, `rows_affected`
counts matching rows.  External cryptographic primitives that live outside
this repository (argon2 hashing and verification, PHC-string parsing, JWT
encoding) are passed in as function-valued parameters, exactly at the points
where the handlers call them; their results are matched the way the Rust
code matches the corresponding `Result` values.  Timestamps are integers
(seconds); `chrono::Duration::days n` is `n * 86400`.
-/

namespace WolWeb

/-- A row of the `users` table (see the columns selected throughout
src/backend/src/api/users.rs). -/
structure User where
  id : Int
  username : String
  password_hash : String
  role : String
  failed_login_attempts : Int
  last_login_at : Option Int
  force_password_change : Bool
  is_disabled : Bool
deriving Repr, DecidableEq

/-- A row of the `refresh_tokens` table: `(token_hash, user_id, expires_at)`.
The column is called `token_hash` although the handlers store the raw token
("for simplicity we store as is"). -/
structure RefreshTokenRow where
  token_hash : String
  user_id : Int
  expires_at : Int
deriving Repr, DecidableEq

/-- The persistent state the handlers read and write. -/
structure DB where
  users : List User
  refresh_tokens : List RefreshTokenRow
deriving Repr, DecidableEq

/-- `SELECT ... FROM users WHERE id = ?` with `fetch_optional`. -/
def findUserById (db : DB) (uid : Int) : Option User :=
  db.users.find? (fun u => u.id == uid)

/-- `SELECT ... FROM users WHERE username = ?` with `fetch_optional`. -/
def findUserByUsername (db : DB) (uname : String) : Option User :=
  db.users.find? (fun u => u.username == uname)

/-- `UPDATE users SET ... WHERE id = ?`: apply `f` to every row whose `id`
matches. -/
def updateUsers (db : DB) (uid : Int) (f : User → User) : DB :=
  { db with users := db.users.map (fun u => if u.id == uid then f u else u) }

/-- `rows_affected()` of a statement whose `WHERE` clause is `id = ?`. -/
def userRowsAffected (db : DB) (uid : Int) : Nat :=
  db.users.countP (fun u => u.id == uid)

/-- `SELECT ... FROM refresh_tokens WHERE token_hash = ?` with
`fetch_optional`. -/
def findRefreshToken (db : DB) (tok : String) : Option RefreshTokenRow :=
  db.refresh_tokens.find? (fun r => r.token_hash == tok)

/-- `DELETE FROM refresh_tokens WHERE token_hash = ?`. -/
def deleteRefreshToken (db : DB) (tok : String) : DB :=
  { db with refresh_tokens := db.refresh_tokens.filter (fun r => !(r.token_hash == tok)) }

/-- `INSERT INTO refresh_tokens (token_hash, user_id, expires_at) VALUES (?, ?, ?)`. -/
def insertRefreshToken (db : DB) (row : RefreshTokenRow) : DB :=
  { db with refresh_tokens := db.refresh_tokens ++ [row] }

/-- `chrono::Duration::days n` in seconds. -/
def days (n : Int) : Int := n * 86400

/-- The JWT claims of src/backend/src/auth.rs (`Claims`). -/
structure Claims where
  sub : String
  uid : Int
  role : String
  exp : Nat
deriving Repr, DecidableEq

/-- The rejection taxonomy of the authorization gate (`AuthError`). -/
inductive AuthError
  | MissingCredentials
  | InvalidToken
  | Forbidden
  | AccountDisabled
  | DatabaseError
deriving Repr, DecidableEq

/-- The authenticated identity produced by the gate (`AuthUser`). -/
structure AuthUser where
  id : Int
  username : String
  role : String
deriving Repr, DecidableEq

/-- `AuthUser::from_request_parts` (src/backend/src/auth.rs lines 72-102).
`bearer` is the result of extracting the `Authorization: Bearer` header
(`none` when missing or malformed); `decode` is `jsonwebtoken::decode`
against the process secret, returning `none` on any signature/expiry/
structural failure.  After decoding, the handler performs the live lookup
`SELECT is_disabled FROM users WHERE id = ?` and matches exactly as the
Rust `match user` does. -/
def from_request_parts (decode : String → Option Claims) (bearer : Option String)
    (db : DB) : Except AuthError AuthUser :=
  match bearer with
  | none => .error .MissingCredentials
  | some tokenStr =>
    match decode tokenStr with
    | none => .error .InvalidToken
    | some claims =>
      match findUserById db claims.uid with
      | some u =>
        if u.is_disabled then .error .AccountDisabled
        else .ok { id := claims.uid, username := claims.sub, role := claims.role }
      | none => .error .InvalidToken

/-- `AdminUser::from_request_parts` (src/backend/src/auth.rs lines 112-120):
wraps the base extractor and additionally requires `role == "admin"`. -/
def admin_from_request_parts (decode : String → Option Claims) (bearer : Option String)
    (db : DB) : Except AuthError AuthUser :=
  match from_request_parts decode bearer db with
  | .error e => .error e
  | .ok user => if user.role == "admin" then .ok user else .error .Forbidden

/-- `verify_password` (src/backend/src/api/users.rs lines 112-121).
`parseHash` embeds `PasswordHash::new` (the PHC-string parser of the
argon2 crate, `none` on a malformed digest) and `argonVerify` embeds
`Argon2::default().verify_password(...).is_ok()`.  The Rust function
matches the parse result and returns `false` on the error branch. -/
def verify_password {PH : Type} (parseHash : String → Option PH)
    (argonVerify : String → PH → Bool) (password password_hash : String) : Bool :=
  match parseHash password_hash with
  | none => false
  | some parsed => argonVerify password parsed

/-- Outcomes of `POST /api/login` (src/backend/src/api/users.rs `login`). -/
inductive LoginResult
  | invalidCredentials
  | accountDisabled
  | tokenError
  | success (access : String) (refresh : String) (user : User)
deriving Repr, DecidableEq

/-- `login` (src/backend/src/api/users.rs lines 209-307).
`pwVerify password hash` embeds `verify_password(&payload.password,
&user.password_hash)`; `jwt` is the result of `create_jwt` (`none` on
error); `newRefreshToken` is the value of `generate_refresh_token()`.
Steps, in source order: lowercase the username, fetch the user, reject a
disabled account, verify the password (incrementing
`failed_login_attempts` on mismatch), reset the counter and set
`last_login_at = CURRENT_TIMESTAMP`, mint the JWT, then persist a refresh
token expiring in 30 days when `remember_me` else 1 day. -/
def login (db : DB) (now : Int) (username password : String) (remember_me : Option Bool)
    (pwVerify : String → String → Bool) (jwt : Option String) (newRefreshToken : String) :
    LoginResult × DB :=
  let uname := username.toLower
  match findUserByUsername db uname with
  | none => (.invalidCredentials, db)
  | some user =>
    if user.is_disabled then (.accountDisabled, db)
    else if !(pwVerify password user.password_hash) then
      (.invalidCredentials, updateUsers db user.id (fun u =>
        { u with failed_login_attempts := u.failed_login_attempts + 1 }))
    else
      let db1 := updateUsers db user.id (fun u =>
        { u with failed_login_attempts := 0, last_login_at := some now })
      match jwt with
      | none => (.tokenError, db1)
      | some access =>
        let dur := if remember_me.getD false then days 30 else days 1
        let db2 := insertRefreshToken db1
          { token_hash := newRefreshToken, user_id := user.id, expires_at := now + dur }
        (.success access newRefreshToken user, db2)

/-- Outcomes of `POST /api/refresh` (src/backend/src/api/users.rs
`refresh_token`). -/
inductive RefreshResult
  | invalidToken
  | expiredToken
  | userNotFound
  | tokenError
  | success (access : String) (refresh : String)
deriving Repr, DecidableEq

/-- `refresh_token` (src/backend/src/api/users.rs lines 606-684).
Source order: look the token up (`Invalid refresh token` when absent); if
`expires_at < now` delete the row and answer `Refresh token expired`;
fetch the owning user (`User not found` when deleted); delete the old row;
mint the JWT (`jwt = none` embeds a `create_jwt` failure, answered 500
with the old row already gone); insert the rotated token with
`expires_at = now + 30 days`. -/
def refresh_token (db : DB) (now : Int) (tok : String)
    (jwt : Option String) (newRefreshToken : String) : RefreshResult × DB :=
  match findRefreshToken db tok with
  | none => (.invalidToken, db)
  | some record =>
    if record.expires_at < now then
      (.expiredToken, deleteRefreshToken db tok)
    else
      match findUserById db record.user_id with
      | none => (.userNotFound, db)
      | some _user =>
        let db1 := deleteRefreshToken db tok
        match jwt with
        | none => (.tokenError, db1)
        | some access =>
          let db2 := insertRefreshToken db1
            { token_hash := newRefreshToken, user_id := record.user_id,
              expires_at := now + days 30 }
          (.success access newRefreshToken, db2)

/-- Outcomes of `POST /api/change-password`. -/
inductive ChangePasswordResult
  | userNotFound
  | invalidCurrentPassword
  | hashError
  | success
deriving Repr, DecidableEq

/-- `change_password` (src/backend/src/api/users.rs lines 496-547).
Fetch the caller's `password_hash`, verify `old_password` against it,
hash `new_password` (`hashFn`, `none` on a hashing failure), then
`UPDATE users SET password_hash = ?, force_password_change = 0 WHERE id = ?`. -/
def change_password (db : DB) (authId : Int) (old_password new_password : String)
    (pwVerify : String → String → Bool) (hashFn : String → Option String) :
    ChangePasswordResult × DB :=
  match findUserById db authId with
  | none => (.userNotFound, db)
  | some user =>
    if !(pwVerify old_password user.password_hash) then
      (.invalidCurrentPassword, db)
    else
      match hashFn new_password with
      | none => (.hashError, db)
      | some h =>
        (.success, updateUsers db authId (fun u =>
          { u with password_hash := h, force_password_change := false }))

/-- Outcomes of `POST /api/users/:id/reset-password`. -/
inductive ResetPasswordResult
  | hashError
  | userNotFound
  | success (password : Option String)
deriving Repr, DecidableEq

/-- `admin_reset_password` (src/backend/src/api/users.rs lines 432-482).
When the request supplies `new_password` its hash is stored and no
plaintext is returned; otherwise the generated 12-character password
(`generatedPassword`, the value of `Alphanumeric.sample_string`) is hashed
and returned in the response.  The update sets `password_hash`,
`failed_login_attempts = 0`, `last_login_at = NULL`,
`force_password_change = 1`; `rows_affected() == 0` answers 404. -/
def admin_reset_password (db : DB) (targetId : Int) (new_password : Option String)
    (generatedPassword : String) (hashFn : String → Option String) :
    ResetPasswordResult × DB :=
  let hashedPair : Option (String × Option String) :=
    match new_password with
    | some p => (hashFn p).map (fun h => (h, none))
    | none => (hashFn generatedPassword).map (fun h => (h, some generatedPassword))
  match hashedPair with
  | none => (.hashError, db)
  | some (password_hash, generated) =>
    let db1 := updateUsers db targetId (fun u =>
      { u with password_hash := password_hash, failed_login_attempts := 0,
               last_login_at := none, force_password_change := true })
    if userRowsAffected db targetId == 0 then
      (.userNotFound, db1)
    else
      (.success generated, db1)

/-- Outcomes of the three admin account-management handlers. -/
inductive AdminActionResult
  | forbidden
  | notFound
  | ok
deriving Repr, DecidableEq

/-- `update_role` (src/backend/src/api/users.rs lines 349-374): the
self-action guard `user_id == admin.0.id` answers 403 before any write. -/
def update_role (db : DB) (adminId targetId : Int) (role : String) :
    AdminActionResult × DB :=
  if targetId == adminId then (.forbidden, db)
  else
    let db1 := updateUsers db targetId (fun u => { u with role := role })
    if userRowsAffected db targetId == 0 then (.notFound, db1)
    else (.ok, db1)

/-- `update_status` (src/backend/src/api/users.rs lines 390-415): the guard
trips only when an admin targets themselves with `is_disabled = true`. -/
def update_status (db : DB) (adminId targetId : Int) (is_disabled : Bool) :
    AdminActionResult × DB :=
  if targetId == adminId && is_disabled then (.forbidden, db)
  else
    let db1 := updateUsers db targetId (fun u => { u with is_disabled := is_disabled })
    if userRowsAffected db targetId == 0 then (.notFound, db1)
    else (.ok, db1)

/-- `delete_user` (src/backend/src/api/users.rs lines 563-593): the
self-action guard answers 403 before the `DELETE`. -/
def delete_user (db : DB) (adminId targetId : Int) : AdminActionResult × DB :=
  if targetId == adminId then (.forbidden, db)
  else
    let db1 : DB := { db with users := db.users.filter (fun u => !(u.id == targetId)) }
    if userRowsAffected db targetId == 0 then (.notFound, db1)
    else (.ok, db1)

/-! ### Concrete data used to evaluate the model on small inputs -/

def wClaims : Claims := { sub := "alice", uid := 1, role := "user", exp := 9999 }

def wDecode : String → Option Claims := fun s => if s == "tok-alice" then some wClaims else none

def wAliceDisabled : User :=
  { id := 1, username := "alice", password_hash := "phc1", role := "user",
    failed_login_attempts := 0, last_login_at := none,
    force_password_change := false, is_disabled := true }

def wDbDisabled : DB := { users := [wAliceDisabled], refresh_tokens := [] }

def wAlice : User :=
  { id := 1, username := "alice".toLower, password_hash := "H-old", role := "user",
    failed_login_attempts := 0, last_login_at := none,
    force_password_change := true, is_disabled := false }

def wAdmin : User :=
  { id := 2, username := "root", password_hash := "H-root", role := "admin",
    failed_login_attempts := 0, last_login_at := some 10,
    force_password_change := false, is_disabled := false }

def wToken : RefreshTokenRow := { token_hash := "rt1", user_id := 1, expires_at := 1000 }

def wDb : DB := { users := [wAlice, wAdmin], refresh_tokens := [wToken] }

def wVerify : String → String → Bool := fun p h => p == "pw-good" && h == "H-old"

def wAliceDisabledTok : User := { wAlice with is_disabled := true }

def wDbDisabledTok : DB := { users := [wAliceDisabledTok], refresh_tokens := [wToken] }

def wHash : String → Option String := fun p => some ("H-" ++ p)

/-! ### Helper lemmas about the row-level embedding of SQL statements -/

/-- `find?` commutes with mapping a function that preserves the predicate. -/
theorem find?_map_of_pred_inv {α : Type} (f : α → α) (p : α → Bool)
    (hp : ∀ a, p (f a) = p a) (l : List α) :
    (l.map f).find? p = (l.find? p).map f := by
  rw [List.find?_map]
  have hfun : (p ∘ f) = p := funext hp
  rw [hfun]

/-- Looking a user up after an id-targeted `UPDATE` that preserves ids. -/
theorem findUserById_updateUsers (db : DB) (tid uid : Int) (f : User → User)
    (hid : ∀ u, (f u).id = u.id) :
    findUserById (updateUsers db tid f) uid =
      (findUserById db uid).map (fun u => if u.id == tid then f u else u) := by
  unfold findUserById updateUsers
  exact find?_map_of_pred_inv _ _
    (fun a => by by_cases h : a.id == tid <;> simp [h, hid]) _

/-- Looking a user up by username after an id-targeted `UPDATE` that
preserves usernames. -/
theorem findUserByUsername_updateUsers (db : DB) (tid : Int) (uname : String)
    (f : User → User) (hname : ∀ u, (f u).username = u.username) :
    findUserByUsername (updateUsers db tid f) uname =
      (findUserByUsername db uname).map (fun u => if u.id == tid then f u else u) := by
  unfold findUserByUsername updateUsers
  exact find?_map_of_pred_inv _ _
    (fun a => by by_cases h : a.id == tid <;> simp [h, hname]) _

/-- A `DELETE ... WHERE token_hash = ?` removes every row with that hash. -/
theorem findRefreshToken_delete_self (db : DB) (tok : String) :
    findRefreshToken (deleteRefreshToken db tok) tok = none := by
  unfold findRefreshToken deleteRefreshToken
  simp only [List.find?_eq_none, List.mem_filter]
  rintro x ⟨_, hnp⟩
  simpa using hnp

/-- Inserting a row with a different hash does not affect a lookup. -/
theorem findRefreshToken_insert_ne (db : DB) (row : RefreshTokenRow) (tok : String)
    (hne : row.token_hash ≠ tok) :
    findRefreshToken (insertRefreshToken db row) tok = findRefreshToken db tok := by
  unfold findRefreshToken insertRefreshToken
  rw [List.find?_append]
  cases h : db.refresh_tokens.find? (fun r => r.token_hash == tok) <;> simp [hne]

/-- A successful lookup means the `WHERE id = ?` clause matches a row, so
`rows_affected()` is nonzero. -/
theorem userRowsAffected_ne_zero (db : DB) (uid : Int) (u : User)
    (h : findUserById db uid = some u) : (userRowsAffected db uid == 0) = false := by
  unfold findUserById at h
  unfold userRowsAffected
  have hp := List.find?_some h
  have hmem := List.mem_of_find?_eq_some h
  rw [beq_eq_false_iff_ne]
  intro h0
  rw [List.countP_eq_zero] at h0
  exact absurd hp (h0 u hmem)

/-! ### Claim theorems -/

/-- Claim C1: the authorization gate, after a bearer token's signature and
expiry verify, performs a live lookup of the account's `is_disabled` flag:
a disabled account is rejected with `AccountDisabled`, a deleted account
with `InvalidToken`, and only an existing enabled account yields an
authenticated user — so an account disabled after token issuance but
before expiry is rejected on its next request. -/
theorem auth_gate_rechecks_disabled
    (decode : String → Option Claims) (tok : String) (db : DB) (claims : Claims)
    (hdec : decode tok = some claims) :
    (∀ u, findUserById db claims.uid = some u → u.is_disabled = true →
        from_request_parts decode (some tok) db = .error .AccountDisabled)
  ∧ (findUserById db claims.uid = none →
        from_request_parts decode (some tok) db = .error .InvalidToken)
  ∧ (∀ u, findUserById db claims.uid = some u → u.is_disabled = false →
        from_request_parts decode (some tok) db =
          .ok { id := claims.uid, username := claims.sub, role := claims.role }) := by
  refine ⟨?_, ?_, ?_⟩
  · intro u hu hd
    simp [from_request_parts, hdec, hu, hd]
  · intro hn
    simp [from_request_parts, hdec, hn]
  · intro u hu hd
    simp [from_request_parts, hdec, hu, hd]

/-- Witness for C1 on concrete data: a valid token of a now-disabled
account is rejected with `AccountDisabled`. -/
theorem auth_gate_rechecks_disabled_witness :
    from_request_parts wDecode (some "tok-alice") wDbDisabled =
      .error .AccountDisabled :=
  (auth_gate_rechecks_disabled wDecode "tok-alice" wDbDisabled wClaims
    (by simp [wDecode])).1 wAliceDisabled
    (by simp [findUserById, wDbDisabled, wAliceDisabled, wClaims]) rfl

/-- Claim C4: for every plaintext and every malformed digest (one the PHC
parser rejects), `verify_password` takes the total error branch and
returns `false`; in this embedding the function is total by construction,
mirroring the Rust `match` that never panics. -/
theorem verify_password_malformed_false {PH : Type} (parseHash : String → Option PH)
    (argonVerify : String → PH → Bool) (password digest : String)
    (hmal : parseHash digest = none) :
    verify_password parseHash argonVerify password digest = false := by
  unfold verify_password
  rw [hmal]

/-- Witness for C4: a parser rejecting a concrete malformed digest makes
`verify_password` answer `false`. -/
theorem verify_password_malformed_false_witness :
    verify_password (fun _ => (none : Option Unit)) (fun _ _ => true)
      "hunter2" "not-a-phc-digest" = false :=
  verify_password_malformed_false _ _ "hunter2" "not-a-phc-digest" rfl

/-- Claim C7: each self-targeting admin action — role change, disable,
delete — is rejected with the forbidden outcome and leaves the state
unchanged; in the delete case the account list is untouched, so the
account remains present. -/
theorem self_action_guards (db : DB) (adminId : Int) (role : String) :
    update_role db adminId adminId role = (.forbidden, db)
  ∧ update_status db adminId adminId true = (.forbidden, db)
  ∧ delete_user db adminId adminId = (.forbidden, db)
  ∧ (delete_user db adminId adminId).2.users = db.users := by
  refine ⟨?_, ?_, ?_, ?_⟩ <;> simp [update_role, update_status, delete_user]

/-- Claim C2: redemption at `POST /api/refresh` is single-use.  An absent
token fails as invalid with the state unchanged; a present but expired
token is deleted and fails as expired; otherwise (owning account present,
JWT minting succeeding) the row is deleted and a rotated pair is returned;
consequently a second redemption of a token already redeemed successfully
fails as invalid. -/
theorem refresh_token_single_use (db : DB) (now now2 : Int) (tok : String)
    (jwt jwt2 : Option String) (nr nr2 : String) :
    (findRefreshToken db tok = none →
        refresh_token db now tok jwt nr = (.invalidToken, db))
  ∧ (∀ r, findRefreshToken db tok = some r → r.expires_at < now →
        refresh_token db now tok jwt nr = (.expiredToken, deleteRefreshToken db tok))
  ∧ (∀ r u a, findRefreshToken db tok = some r → ¬ r.expires_at < now →
        findUserById db r.user_id = some u → jwt = some a →
        refresh_token db now tok jwt nr =
          (.success a nr, insertRefreshToken (deleteRefreshToken db tok)
            { token_hash := nr, user_id := r.user_id, expires_at := now + days 30 }))
  ∧ (∀ r u a, findRefreshToken db tok = some r → ¬ r.expires_at < now →
        findUserById db r.user_id = some u → jwt = some a → nr ≠ tok →
        (refresh_token (refresh_token db now tok jwt nr).2 now2 tok jwt2 nr2).1
          = .invalidToken) := by
  refine ⟨?_, ?_, ?_, ?_⟩
  · intro hn
    simp [refresh_token, hn]
  · intro r hr hexp
    simp [refresh_token, hr, hexp]
  · intro r u a hr hexp hu hj
    subst hj
    simp [refresh_token, hr, hexp, hu]
  · intro r u a hr hexp hu hj hne
    subst hj
    have hgone : findRefreshToken
        (insertRefreshToken (deleteRefreshToken db tok)
          { token_hash := nr, user_id := r.user_id, expires_at := now + days 30 }) tok
        = none := by
      rw [findRefreshToken_insert_ne _ _ _ hne, findRefreshToken_delete_self]
    simp [refresh_token, hr, hexp, hu, hgone]

/-- Witness for C2: redeem `rt1` once, then a second redemption of `rt1`
fails as invalid. -/
theorem refresh_token_single_use_witness :
    (refresh_token (refresh_token wDb 100 "rt1" (some "acc") "rt2").2
        200 "rt1" (some "acc2") "rt3").1 = .invalidToken :=
  (refresh_token_single_use wDb 100 200 "rt1" (some "acc") (some "acc2")
      "rt2" "rt3").2.2.2 wToken wAlice "acc"
    (by simp [findRefreshToken, wDb, wToken])
    (by simp [wToken])
    (by simp [findUserById, wDb, wToken, wAlice])
    rfl
    (by simp)

/-- Claim C9: redemption never consults the owning account's `is_disabled`
flag — a disabled account holding a present, unexpired refresh token still
obtains a fresh pair from `POST /api/refresh`. -/
theorem refresh_token_ignores_disabled (db : DB) (now : Int) (tok a nr : String)
    (r : RefreshTokenRow) (u : User)
    (hfind : findRefreshToken db tok = some r)
    (hexp : ¬ r.expires_at < now)
    (huser : findUserById db r.user_id = some u)
    (hdis : u.is_disabled = true) :
    (refresh_token db now tok (some a) nr).1 = .success a nr := by
  simp [refresh_token, hfind, hexp, huser]

/-- Witness for C9: the disabled account `alice` still redeems `rt1`. -/
theorem refresh_token_ignores_disabled_witness :
    (refresh_token wDbDisabledTok 100 "rt1" (some "acc") "rt2").1 =
      .success "acc" "rt2" :=
  refresh_token_ignores_disabled wDbDisabledTok 100 "rt1" "acc" "rt2"
    wToken wAliceDisabledTok
    (by simp [findRefreshToken, wDbDisabledTok, wToken])
    (by simp [wToken])
    (by simp [findUserById, wDbDisabledTok, wToken, wAliceDisabledTok, wAlice])
    (by simp [wAliceDisabledTok])

/-- Claim C10: during redemption the old row is deleted before the access
token is minted, so when `create_jwt` fails the handler answers the
internal error with the old token already gone from the ledger and no
replacement stored. -/
theorem refresh_token_deletes_before_mint (db : DB) (now : Int) (tok nr : String)
    (r : RefreshTokenRow) (u : User)
    (hfind : findRefreshToken db tok = some r)
    (hexp : ¬ r.expires_at < now)
    (huser : findUserById db r.user_id = some u) :
    refresh_token db now tok none nr = (.tokenError, deleteRefreshToken db tok)
  ∧ findRefreshToken (refresh_token db now tok none nr).2 tok = none
  ∧ (refresh_token db now tok none nr).2.refresh_tokens =
      db.refresh_tokens.filter (fun rr => !(rr.token_hash == tok)) := by
  have hmain : refresh_token db now tok none nr =
      (.tokenError, deleteRefreshToken db tok) := by
    simp [refresh_token, hfind, hexp, huser]
  refine ⟨hmain, ?_, ?_⟩
  · rw [hmain]
    exact findRefreshToken_delete_self db tok
  · rw [hmain]
    rfl

/-- Witness for C10: a failed JWT mint during redemption of `rt1` leaves
the ledger without `rt1` and without any replacement. -/
theorem refresh_token_deletes_before_mint_witness :
    refresh_token wDb 100 "rt1" none "rt2" =
      (.tokenError, deleteRefreshToken wDb "rt1") :=
  (refresh_token_deletes_before_mint wDb 100 "rt1" "rt2" wToken wAlice
    (by simp [findRefreshToken, wDb, wToken])
    (by simp [wToken])
    (by simp [findUserById, wDb, wToken, wAlice])).1

/-- Claim C8: a successful login persists a refresh token expiring at
`now + 30 days` when `remember_me` is true and `now + 1 day` otherwise,
while a successful redemption always persists the rotated token with
`now + 30 days`, regardless of the redeemed token's own duration. -/
theorem refresh_ttl_policy (db : DB) (now : Int) (username password : String)
    (rm : Option Bool) (pwVerify : String → String → Bool) (a nr tok : String)
    (u : User) (r : RefreshTokenRow) (v : User)
    (hfind : findUserByUsername db username.toLower = some u)
    (hdis : u.is_disabled = false)
    (hpw : pwVerify password u.password_hash = true)
    (hrt : findRefreshToken db tok = some r)
    (hexp : ¬ r.expires_at < now)
    (hvuser : findUserById db r.user_id = some v) :
    (login db now username password rm pwVerify (some a) nr).2.refresh_tokens =
      db.refresh_tokens ++
        [{ token_hash := nr, user_id := u.id,
           expires_at := now + (if rm.getD false then days 30 else days 1) }]
  ∧ (refresh_token db now tok (some a) nr).2.refresh_tokens =
      (deleteRefreshToken db tok).refresh_tokens ++
        [{ token_hash := nr, user_id := r.user_id,
           expires_at := now + days 30 }] := by
  constructor
  · simp [login, hfind, hdis, hpw, insertRefreshToken, updateUsers]
  · simp [refresh_token, hrt, hexp, hvuser, insertRefreshToken]

/-- Witness for C8: logging `alice` in with `remember_me = true` persists a
30-day token, and redeeming `rt1` persists a 30-day token. -/
theorem refresh_ttl_policy_witness :
    (login wDb 100 "alice" "pw-good" (some true) wVerify (some "acc") "rtN").2.refresh_tokens =
      wDb.refresh_tokens ++ [{ token_hash := "rtN", user_id := 1, expires_at := 100 + days 30 }]
  ∧ (refresh_token wDb 100 "rt1" (some "acc") "rtN").2.refresh_tokens =
      (deleteRefreshToken wDb "rt1").refresh_tokens ++
        [{ token_hash := "rtN", user_id := 1, expires_at := 100 + days 30 }] := by
  have h := refresh_ttl_policy wDb 100 "alice" "pw-good" (some true) wVerify
    "acc" "rtN" "rt1" wAlice wToken wAlice
    (by simp [findUserByUsername, wDb, wAlice])
    (by simp [wAlice])
    (by simp [wVerify, wAlice])
    (by simp [findRefreshToken, wDb, wToken])
    (by simp [wToken])
    (by simp [findUserById, wDb, wToken, wAlice])
  simpa [wAlice, wToken] using h

/-- `(u.id == uid) = true` for a user found by id. -/
theorem findUserById_beq (db : DB) (uid : Int) (u : User)
    (hfind : findUserById db uid = some u) : (u.id == uid) = true := by
  unfold findUserById at hfind
  have h := List.find?_some hfind
  simpa using h

/-- Looking a found user up again after an id-targeted `UPDATE` yields the
updated row. -/
theorem findUserById_after_update (db : DB) (uid : Int) (u : User) (f : User → User)
    (hfind : findUserById db uid = some u) (hid : ∀ v, (f v).id = v.id) :
    findUserById (updateUsers db uid f) uid = some (f u) := by
  have hbeq := findUserById_beq db uid u hfind
  rw [findUserById_updateUsers db uid uid f hid, hfind]
  simp only [Option.map_some']
  rw [if_pos hbeq]

/-- Looking a found user up by username after an `UPDATE` targeting that
user's id yields the updated row. -/
theorem findUserByUsername_after_update (db : DB) (uname : String) (u : User)
    (f : User → User) (hfind : findUserByUsername db uname = some u)
    (hname : ∀ v, (f v).username = v.username) :
    findUserByUsername (updateUsers db u.id f) uname = some (f u) := by
  rw [findUserByUsername_updateUsers db u.id uname f hname, hfind]
  simp

/-- Inserting a refresh token leaves the `users` table alone. -/
theorem findUserByUsername_insert (db : DB) (row : RefreshTokenRow) (uname : String) :
    findUserByUsername (insertRefreshToken db row) uname = findUserByUsername db uname := rfl

/-- A failed password check answers `invalidCredentials` and performs
exactly the `failed_login_attempts + 1` update. -/
theorem login_wrong_password_step (db : DB) (now : Int) (username password : String)
    (rm : Option Bool) (pwVerify : String → String → Bool) (jwt : Option String)
    (nr : String) (u : User)
    (hfind : findUserByUsername db username.toLower = some u)
    (hdis : u.is_disabled = false)
    (hpw : pwVerify password u.password_hash = false) :
    (login db now username password rm pwVerify jwt nr).1 = .invalidCredentials
  ∧ (login db now username password rm pwVerify jwt nr).2 =
      updateUsers db u.id (fun v =>
        { v with failed_login_attempts := v.failed_login_attempts + 1 }) := by
  constructor <;> simp [login, hfind, hdis, hpw]

/-- A successful password check resets the counter and stamps
`last_login_at`, whatever the JWT minting does afterwards. -/
theorem login_correct_password_row (db : DB) (now : Int) (username password : String)
    (rm : Option Bool) (pwVerify : String → String → Bool) (jwt : Option String)
    (nr : String) (u : User)
    (hfind : findUserByUsername db username.toLower = some u)
    (hdis : u.is_disabled = false)
    (hpw : pwVerify password u.password_hash = true) :
    findUserByUsername (login db now username password rm pwVerify jwt nr).2
        username.toLower =
      some { u with failed_login_attempts := 0, last_login_at := some now } := by
  have hbump := findUserByUsername_after_update db username.toLower u
    (fun v => { v with failed_login_attempts := 0, last_login_at := some now })
    hfind (fun v => rfl)
  cases jwt with
  | none =>
    have hdb : (login db now username password rm pwVerify none nr).2 =
        updateUsers db u.id (fun v =>
          { v with failed_login_attempts := 0, last_login_at := some now }) := by
      simp [login, hfind, hdis, hpw]
    rw [hdb, hbump]
  | some a =>
    have hdb : (login db now username password rm pwVerify (some a) nr).2 =
        insertRefreshToken
          (updateUsers db u.id (fun v =>
            { v with failed_login_attempts := 0, last_login_at := some now }))
          { token_hash := nr, user_id := u.id,
            expires_at := now + (if rm.getD false then days 30 else days 1) } := by
      simp [login, hfind, hdis, hpw]
    rw [hdb, findUserByUsername_insert, hbump]

/-- Iterating the wrong-password login adds exactly one to the counter per
attempt, leaving every other field of the row alone. -/
theorem login_wrong_password_iterate (now : Int) (username password : String)
    (rm : Option Bool) (pwVerify : String → String → Bool) (jwt : Option String)
    (nr : String) :
    ∀ (n : Nat) (db : DB) (u : User),
      findUserByUsername db username.toLower = some u →
      u.is_disabled = false →
      pwVerify password u.password_hash = false →
      findUserByUsername
          ((fun d => (login d now username password rm pwVerify jwt nr).2)^[n] db)
          username.toLower =
        some { u with failed_login_attempts := u.failed_login_attempts + n } := by
  intro n
  induction n with
  | zero =>
    intro db u hfind _ _
    simpa using hfind
  | succ n ih =>
    intro db u hfind hdis hpw
    rw [Function.iterate_succ_apply]
    have hstep := (login_wrong_password_step db now username password rm pwVerify
      jwt nr u hfind hdis hpw).2
    have hfind1 : findUserByUsername
        ((fun d => (login d now username password rm pwVerify jwt nr).2) db)
        username.toLower =
        some { u with failed_login_attempts := u.failed_login_attempts + 1 } := by
      show findUserByUsername (login db now username password rm pwVerify jwt nr).2
        username.toLower = _
      rw [hstep]
      exact findUserByUsername_after_update db username.toLower u
        (fun v => { v with failed_login_attempts := v.failed_login_attempts + 1 })
        hfind (fun v => rfl)
    have hrec := ih _ _ hfind1 hdis hpw
    rw [hrec]
    simp only [Option.some.injEq, User.mk.injEq, and_true, true_and]
    push_cast
    ring

/-- Claim C3: a wrong-password login increments `failed_login_attempts` by
exactly 1 and leaves `last_login_at` (and every other field) unchanged; a
correct-password login on an enabled account resets the counter to 0 and
stamps `last_login_at = now`; a disabled account is rejected before the
password is checked (for every verifier) with the state unchanged; hence
`n` consecutive wrong-password logins add `n` to the counter and a
subsequent correct login resets it to 0. -/
theorem login_failed_attempts_semantics (db : DB) (now now2 : Int)
    (username password password2 : String) (rm : Option Bool)
    (pwVerify : String → String → Bool) (jwt : Option String) (nr : String)
    (u : User) (hfind : findUserByUsername db username.toLower = some u) :
    (u.is_disabled = true → ∀ pv : String → String → Bool,
        login db now username password rm pv jwt nr = (.accountDisabled, db))
  ∧ (u.is_disabled = false → pwVerify password u.password_hash = false →
        (login db now username password rm pwVerify jwt nr).1 = .invalidCredentials
      ∧ findUserByUsername (login db now username password rm pwVerify jwt nr).2
            username.toLower =
          some { u with failed_login_attempts := u.failed_login_attempts + 1 })
  ∧ (u.is_disabled = false → pwVerify password u.password_hash = true →
        findUserByUsername (login db now username password rm pwVerify jwt nr).2
            username.toLower =
          some { u with failed_login_attempts := 0, last_login_at := some now })
  ∧ (u.is_disabled = false → pwVerify password u.password_hash = false →
        ∀ n : Nat,
          findUserByUsername
              ((fun d => (login d now username password rm pwVerify jwt nr).2)^[n] db)
              username.toLower =
            some { u with failed_login_attempts := u.failed_login_attempts + n })
  ∧ (u.is_disabled = false → pwVerify password u.password_hash = false →
        pwVerify password2 u.password_hash = true →
        ∀ n : Nat,
          findUserByUsername
              (login ((fun d => (login d now username password rm pwVerify jwt nr).2)^[n] db)
                now2 username password2 rm pwVerify jwt nr).2
              username.toLower =
            some { u with failed_login_attempts := 0, last_login_at := some now2 }) := by
  refine ⟨?_, ?_, ?_, ?_, ?_⟩
  · intro hdis pv
    simp [login, hfind, hdis]
  · intro hdis hpw
    refine ⟨(login_wrong_password_step db now username password rm pwVerify jwt nr
      u hfind hdis hpw).1, ?_⟩
    rw [(login_wrong_password_step db now username password rm pwVerify jwt nr
      u hfind hdis hpw).2]
    exact findUserByUsername_after_update db username.toLower u
      (fun v => { v with failed_login_attempts := v.failed_login_attempts + 1 })
      hfind (fun v => rfl)
  · intro hdis hpw
    exact login_correct_password_row db now username password rm pwVerify jwt nr
      u hfind hdis hpw
  · intro hdis hpw
    intro n
    exact login_wrong_password_iterate now username password rm pwVerify jwt nr
      n db u hfind hdis hpw
  · intro hdis hpw hpw2 n
    have hit := login_wrong_password_iterate now username password rm pwVerify jwt nr
      n db u hfind hdis hpw
    exact login_correct_password_row _ now2 username password2 rm pwVerify jwt nr
      { u with failed_login_attempts := u.failed_login_attempts + n } hit hdis hpw2

/-- Witness for C3: three wrong-password logins for `alice` leave the
counter at 3, and a subsequent correct login resets it to 0 and stamps
`last_login_at`. -/
theorem login_failed_attempts_semantics_witness :
    findUserByUsername
        ((fun d => (login d 50 "alice" "pw-bad" none wVerify (some "jwt") "rtX").2)^[3] wDb)
        ("alice".toLower) = some { wAlice with failed_login_attempts := 3 }
  ∧ findUserByUsername
        (login ((fun d => (login d 50 "alice" "pw-bad" none wVerify (some "jwt") "rtX").2)^[3] wDb)
          60 "alice" "pw-good" none wVerify (some "jwt") "rtX").2
        ("alice".toLower) =
      some { wAlice with failed_login_attempts := 0, last_login_at := some 60 } := by
  have h := login_failed_attempts_semantics wDb 50 60 "alice" "pw-bad" "pw-good"
    none wVerify (some "jwt") "rtX" wAlice
    (by simp [findUserByUsername, wDb, wAlice])
  refine ⟨?_, ?_⟩
  · have h4 := h.2.2.2.1 (by simp [wAlice]) (by simp [wVerify, wAlice]) 3
    simpa [wAlice] using h4
  · have h5 := h.2.2.2.2 (by simp [wAlice]) (by simp [wVerify, wAlice])
      (by simp [wVerify, wAlice]) 3
    simpa [wAlice] using h5

/-- Claim C5: a successful admin password reset on an existing target
replaces `password_hash` with the hash of the supplied or generated
password, zeroes `failed_login_attempts`, nulls `last_login_at`, and sets
`force_password_change`; when no password was supplied the response
carries the generated plaintext. -/
theorem admin_reset_password_semantics (db : DB) (targetId : Int)
    (gen : String) (hashFn : String → Option String) (u : User) (h : String)
    (hfind : findUserById db targetId = some u) :
    (∀ p, hashFn p = some h →
        admin_reset_password db targetId (some p) gen hashFn =
          (.success none, updateUsers db targetId (fun v =>
            { v with password_hash := h, failed_login_attempts := 0,
                     last_login_at := none, force_password_change := true })))
  ∧ (hashFn gen = some h →
        admin_reset_password db targetId none gen hashFn =
          (.success (some gen), updateUsers db targetId (fun v =>
            { v with password_hash := h, failed_login_attempts := 0,
                     last_login_at := none, force_password_change := true })))
  ∧ (∀ res, (∀ p, res = some p → hashFn p = some h) → (res = none → hashFn gen = some h) →
        findUserById (admin_reset_password db targetId res gen hashFn).2 targetId =
          some { u with password_hash := h, failed_login_attempts := 0,
                        last_login_at := none, force_password_change := true }) := by
  have hra := userRowsAffected_ne_zero db targetId u hfind
  have hrow := findUserById_after_update db targetId u (fun v =>
      { v with password_hash := h, failed_login_attempts := 0,
               last_login_at := none, force_password_change := true })
    hfind (fun v => rfl)
  refine ⟨?_, ?_, ?_⟩
  · intro p hp
    simp [admin_reset_password, hp, hra]
  · intro hp
    simp [admin_reset_password, hp, hra]
  · intro res hsome hnone
    cases res with
    | none =>
      have hp := hnone rfl
      simp only [admin_reset_password, hp, Option.map_some', hra, Bool.false_eq_true,
        if_false]
      exact hrow
    | some p =>
      have hp := hsome p rfl
      simp only [admin_reset_password, hp, Option.map_some', hra, Bool.false_eq_true,
        if_false]
      exact hrow

/-- Witness for C5: resetting `alice` with no supplied password answers
with the generated plaintext and rewrites exactly the four fields. -/
theorem admin_reset_password_semantics_witness :
    admin_reset_password wDb 1 none "gen12chars" wHash =
      (.success (some "gen12chars"), updateUsers wDb 1 (fun v =>
        { v with password_hash := "H-gen12chars", failed_login_attempts := 0,
                 last_login_at := none, force_password_change := true }))
  ∧ findUserById (admin_reset_password wDb 1 none "gen12chars" wHash).2 1 =
      some { wAlice with password_hash := "H-gen12chars", failed_login_attempts := 0,
                         last_login_at := none, force_password_change := true } := by
  have h := admin_reset_password_semantics wDb 1 "gen12chars" wHash wAlice
    "H-gen12chars" (by simp [findUserById, wDb, wAlice])
  exact ⟨h.2.1 (by simp [wHash]),
    h.2.2 none (by simp) (fun _ => by simp [wHash])⟩

/-- Claim C6: the self-service password change succeeds only when the
supplied old password verifies; on success it rewrites exactly
`password_hash` and `force_password_change` (cleared) in the caller's row,
leaving every other field, every other row and the token ledger alone; on
a wrong old password the state is entirely unchanged. -/
theorem change_password_semantics (db : DB) (authId : Int)
    (old_password new_password : String) (pwVerify : String → String → Bool)
    (hashFn : String → Option String) (u : User) (h : String)
    (hfind : findUserById db authId = some u) :
    (pwVerify old_password u.password_hash = false →
        change_password db authId old_password new_password pwVerify hashFn =
          (.invalidCurrentPassword, db))
  ∧ (pwVerify old_password u.password_hash = true → hashFn new_password = some h →
        change_password db authId old_password new_password pwVerify hashFn =
          (.success, updateUsers db authId (fun v =>
            { v with password_hash := h, force_password_change := false }))
      ∧ findUserById
            (change_password db authId old_password new_password pwVerify hashFn).2
            authId =
          some { u with password_hash := h, force_password_change := false }
      ∧ (change_password db authId old_password new_password pwVerify hashFn).2.refresh_tokens
          = db.refresh_tokens
      ∧ ∀ v ∈ db.users, (v.id == authId) = false →
          v ∈ (change_password db authId old_password new_password pwVerify hashFn).2.users) := by
  refine ⟨?_, ?_⟩
  · intro hpw
    simp [change_password, hfind, hpw]
  · intro hpw hh
    have hmain : change_password db authId old_password new_password pwVerify hashFn =
        (.success, updateUsers db authId (fun v =>
          { v with password_hash := h, force_password_change := false })) := by
      simp [change_password, hfind, hpw, hh]
    refine ⟨hmain, ?_, ?_, ?_⟩
    · rw [hmain]
      exact findUserById_after_update db authId u
        (fun v => { v with password_hash := h, force_password_change := false })
        hfind (fun v => rfl)
    · rw [hmain]
      rfl
    · intro v hv hvne
      rw [hmain]
      have hmem := List.mem_map_of_mem
        (fun w => if w.id == authId then
          { w with password_hash := h, force_password_change := false } else w) hv
      simpa [updateUsers, hvne] using hmem

/-- Witness for C6: a wrong old password leaves the state unchanged, and a
correct one rewrites exactly the digest and the forced-change flag. -/
theorem change_password_semantics_witness :
    change_password wDb 1 "pw-bad" "pw-new" wVerify wHash =
      (.invalidCurrentPassword, wDb)
  ∧ findUserById (change_password wDb 1 "pw-good" "pw-new" wVerify wHash).2 1 =
      some { wAlice with password_hash := "H-pw-new", force_password_change := false } := by
  have h := change_password_semantics wDb 1 "pw-bad" "pw-new" wVerify wHash wAlice
    "H-pw-new" (by simp [findUserById, wDb, wAlice])
  have h2 := change_password_semantics wDb 1 "pw-good" "pw-new" wVerify wHash wAlice
    "H-pw-new" (by simp [findUserById, wDb, wAlice])
  exact ⟨h.1 (by simp [wVerify, wAlice]),
    (h2.2 (by simp [wVerify, wAlice]) (by simp [wHash])).2.1⟩

end WolWeb
